import Mathlib

/-
Verification of the job-scraper pipeline (src/scrapers/artstation.py,
src/scrapers/gamejobs.py, src/scrapers/hitmarker.py, src/models.py,
src/main.py, src/api/routers/scrape.py).

The pure classification, identity and extraction logic is embedded
directly from the Python source.  Side-effecting collaborators (the
Playwright page, the SQLAlchemy session) are embedded as explicit data:
the page is a value describing what the browser interaction produced
(navigation failure, an exception before extraction, or the list of
resolved DOM items), and the store is a list of job rows with the
(platform, external_id) unique-constraint behaviour of src/models.py.
-/

/- ===================== Python string primitives ===================== -/

/-- ASCII lowering of one character, mirroring str.lower on the ASCII
range used by every keyword in the scrapers. -/
def lowerCh (c : Char) : Char :=
  if 'A' ≤ c ∧ c ≤ 'Z' then Char.ofNat (c.toNat + 32) else c

/-- Embeds Python str.lower (ASCII range). -/
def pyLower (s : String) : String :=
  String.mk (s.data.map lowerCh)

/-- True when the first list is an initial segment of the second.
Used to embed both substring search and str.startswith. -/
def takesPre : List Char → List Char → Bool
  | [], _ => true
  | _ :: _, [] => false
  | a :: as1, b :: bs => a == b && takesPre as1 bs

/-- Embeds the Python membership test needle in haystack on the
underlying character lists. -/
def hasSubCh : List Char → List Char → Bool
  | hs, ns =>
    if takesPre ns hs then true
    else
      match hs with
      | [] => false
      | _ :: t => hasSubCh t ns

/-- Embeds needle in haystack for strings. -/
def hasSub (haystack needle : String) : Bool :=
  hasSubCh haystack.data needle.data

/-- Embeds str.startswith. -/
def pyStartsWith (s pre : String) : Bool :=
  takesPre pre.data s.data

/-- Python truthiness of a string: empty is falsy. -/
def pyTruthy (s : String) : Bool :=
  !(s == "")

/-- Python truthiness of an optional string: None and the empty string
are falsy. -/
def pyTruthyOpt : Option String → Bool
  | none => false
  | some s => pyTruthy s

/-- Embeds str.strip for the whitespace the scraped text contains. -/
def pyStrip (s : String) : String :=
  s.trim

/- ===================== MD5 (hashlib.md5...hexdigest) =====================
The scrapers fall back to hashlib.md5(url.encode()).hexdigest()[:12] when
no numeric id is present in the URL; RFC 1321 over byte lists, words as
Nat taken mod 2^32. -/

def w32 : Nat := 4294967296

def rotl32 (x s : Nat) : Nat :=
  ((x <<< s) % w32) ||| (x >>> (32 - s))

/-- Per-round left-rotation amounts of RFC 1321. -/
def md5S : List Nat :=
  [7, 12, 17, 22, 7, 12, 17, 22, 7, 12, 17, 22, 7, 12, 17, 22,
   5, 9, 14, 20, 5, 9, 14, 20, 5, 9, 14, 20, 5, 9, 14, 20,
   4, 11, 16, 23, 4, 11, 16, 23, 4, 11, 16, 23, 4, 11, 16, 23,
   6, 10, 15, 21, 6, 10, 15, 21, 6, 10, 15, 21, 6, 10, 15, 21]

/-- Sine-derived round constants of RFC 1321. -/
def md5K : List Nat :=
  [0xd76aa478, 0xe8c7b756, 0x242070db, 0xc1bdceee,
   0xf57c0faf, 0x4787c62a, 0xa8304613, 0xfd469501,
   0x698098d8, 0x8b44f7af, 0xffff5bb1, 0x895cd7be,
   0x6b901122, 0xfd987193, 0xa679438e, 0x49b40821,
   0xf61e2562, 0xc040b340, 0x265e5a51, 0xe9b6c7aa,
   0xd62f105d, 0x02441453, 0xd8a1e681, 0xe7d3fbc8,
   0x21e1cde6, 0xc33707d6, 0xf4d50d87, 0x455a14ed,
   0xa9e3e905, 0xfcefa3f8, 0x676f02d9, 0x8d2a4c8a,
   0xfffa3942, 0x8771f681, 0x6d9d6122, 0xfde5380c,
   0xa4beea44, 0x4bdecfa9, 0xf6bb4b60, 0xbebfbc70,
   0x289b7ec6, 0xeaa127fa, 0xd4ef3085, 0x04881d05,
   0xd9d4d039, 0xe6db99e5, 0x1fa27cf8, 0xc4ac5665,
   0xf4292244, 0x432aff97, 0xab9423a7, 0xfc93a039,
   0x655b59c3, 0x8f0ccc92, 0xffeff47d, 0x85845dd1,
   0x6fa87e4f, 0xfe2ce6e0, 0xa3014314, 0x4e0811a1,
   0xf7537e82, 0xbd3af235, 0x2ad7d2bb, 0xeb86d391]

/-- Merkle-Damgard padding: 0x80, zeros to 56 mod 64, then the bit
length as 8 little-endian bytes. -/
def md5Pad (msg : List Nat) : List Nat :=
  let ml := (8 * msg.length) % (2 ^ 64)
  let padLen := (55 + 64 - msg.length % 64) % 64 + 1
  msg ++ (0x80 :: List.replicate (padLen - 1) 0)
      ++ (List.range 8).map (fun i => ml >>> (8 * i) % 256)

/-- Word j of a chunk, little endian. -/
def leWord (bytes : List Nat) (j : Nat) : Nat :=
  bytes.getD (4 * j) 0 + 256 * bytes.getD (4 * j + 1) 0
    + 65536 * bytes.getD (4 * j + 2) 0 + 16777216 * bytes.getD (4 * j + 3) 0

/-- One of the 64 mixing operations. -/
def md5Round (m : Nat → Nat) (st : Nat × Nat × Nat × Nat) (i : Nat) :
    Nat × Nat × Nat × Nat :=
  let (a, b, c, d) := st
  let notB := b ^^^ (w32 - 1)
  let notD := d ^^^ (w32 - 1)
  let (f, g) :=
    if i < 16 then ((b &&& c) ||| (notB &&& d), i)
    else if i < 32 then ((d &&& b) ||| (notD &&& c), (5 * i + 1) % 16)
    else if i < 48 then (b ^^^ c ^^^ d, (3 * i + 5) % 16)
    else (c ^^^ (b ||| notD), (7 * i) % 16)
  let f2 := (f + a + md5K.getD i 0 + m g) % w32
  (d, (b + rotl32 f2 (md5S.getD i 0)) % w32, b, c)

/-- Compression of one 64-byte chunk. -/
def md5Chunk (st : Nat × Nat × Nat × Nat) (chunk : List Nat) :
    Nat × Nat × Nat × Nat :=
  let m := leWord chunk
  let (a0, b0, c0, d0) := st
  let (a, b, c, d) := (List.range 64).foldl (md5Round m) st
  ((a0 + a) % w32, (b0 + b) % w32, (c0 + c) % w32, (d0 + d) % w32)

def md5Chunks (st : Nat × Nat × Nat × Nat) (bytes : List Nat) :
    Nat × Nat × Nat × Nat :=
  if h : bytes = [] then st
  else md5Chunks (md5Chunk st (bytes.take 64)) (bytes.drop 64)
termination_by bytes.length
decreasing_by
  simp only [List.length_drop]
  have := List.length_pos.mpr h
  omega

def hexChar (n : Nat) : Char :=
  if n < 10 then Char.ofNat (48 + n) else Char.ofNat (87 + n)

def byteHex (b : Nat) : List Char :=
  [hexChar (b / 16), hexChar (b % 16)]

/-- hashlib.md5(bytes).hexdigest(): digest of the four state words,
little endian, as lowercase hex. -/
def md5Hex (msg : List Nat) : String :=
  let (a, b, c, d) :=
    md5Chunks (0x67452301, 0xefcdab89, 0x98badcfe, 0x10325476) (md5Pad msg)
  let bytes :=
    [a, b, c, d].flatMap (fun x => (List.range 4).map (fun i => x >>> (8 * i) % 256))
  String.mk (bytes.flatMap byteHex)

/-- str.encode(): UTF-8 bytes of a string. -/
def utf8Bytes (s : String) : List Nat :=
  s.data.flatMap (fun c =>
    let n := c.toNat
    if n < 128 then [n]
    else if n < 2048 then [192 + n >>> 6, 128 + (n &&& 63)]
    else if n < 65536 then [224 + n >>> 12, 128 + (n >>> 6 &&& 63), 128 + (n &&& 63)]
    else [240 + n >>> 18, 128 + (n >>> 12 &&& 63), 128 + (n >>> 6 &&& 63),
          128 + (n &&& 63)])

/-- hashlib.md5(url.encode()).hexdigest()[:12]. -/
def md5Hex12 (u : String) : String :=
  String.mk ((md5Hex (utf8Bytes u)).data.take 12)

/- ===================== re.search for /jobs/(digits) ===================== -/

/-- Maximal leading digit run, the greedy capture of a digit group. -/
def digitRun : List Char → List Char
  | [] => []
  | c :: t => if c.isDigit then c :: digitRun t else []

/-- Embeds re.search of the pattern slash jobs slash followed by one or
more digits, as used by the ArtStation and Hitmarker id extractors: scan
left to right, succeed at the first position where the literal segment
is followed by at least one digit, and capture the maximal digit run. -/
def findJobsId : List Char → Option (List Char)
  | [] => none
  | c :: t =>
    let cs := c :: t
    if takesPre "/jobs/".data cs then
      let rest := cs.drop 6
      match rest with
      | d :: _ =>
        if d.isDigit then some (digitRun rest) else findJobsId t
      | [] => findJobsId t
    else findJobsId t

/- ===================== Job rows (src/models.py Job) =====================
Timestamp fields (posted_date, scraped_at, updated_at) and the constant
None metadata fields (company_size, company_type) are outside the
embedding; every claim is independent of them. -/

structure Job where
  platform : String
  external_id : String
  url : String
  title : String
  company : String
  location : Option String
  remote_type : Option String
  description : Option String
  is_character_artist : Bool
  is_entry_level : Bool
  relevance_score : Nat
deriving Repr, DecidableEq

/- ===================== ArtStationScraper ===================== -/

namespace ArtStationScraper

/-- Keyword lists of ArtStationScraper._is_character_artist. -/
def character_keywords : List String :=
  ["character artist", "character modeler", "character designer",
   "3d character", "character animator", "character sculptor",
   "character rigger"]

def related_keywords : List String :=
  ["3d artist", "3d generalist", "game artist",
   "asset artist", "organic modeler"]

/-- ArtStationScraper._is_character_artist: any primary or related
keyword as a substring of the lowered title. -/
def is_character_artist (title : String) : Bool :=
  let title_lower := pyLower title
  if character_keywords.any (fun k => hasSub title_lower k) then true
  else if related_keywords.any (fun k => hasSub title_lower k) then true
  else false

/-- Keyword lists of ArtStationScraper._is_entry_level. -/
def entry_keywords : List String :=
  ["junior", "entry level", "entry-level", "associate",
   "graduate", "intern", "trainee", "0-2 years", "1-2 years",
   "early career", "less than 2 years"]

def senior_keywords : List String :=
  ["senior", "lead", "principal", "director",
   "head of", "5+ years", "3+ years", "experienced"]

/-- ArtStationScraper._is_entry_level: the entry-keyword loop runs
first and returns true on a match; only then does the senior-keyword
loop run; default is true. -/
def is_entry_level (title : String) (description : String := "") : Bool :=
  let text_lower := pyLower (title ++ " " ++ description)
  if entry_keywords.any (fun k => hasSub text_lower k) then true
  else if senior_keywords.any (fun k => hasSub text_lower k) then false
  else true

/-- ArtStationScraper._calculate_relevance: 6 for the role match plus 4
for entry level, no clamp and no company bonus in this source. -/
def calculate_relevance (is_character is_entry : Bool) : Nat :=
  let score := 0
  let score := if is_character then score + 6 else score
  let score := if is_entry then score + 4 else score
  score

/-- ArtStationScraper._extract_external_id: the digit group after
/jobs/ when present, else the 12-character md5 fallback, both behind
the artstation_ tag. -/
def extract_external_id (url : String) : String :=
  match findJobsId url.data with
  | some ds => "artstation_" ++ String.mk ds
  | none => "artstation_" ++ md5Hex12 url

end ArtStationScraper

/-- One candidate DOM element of the ArtStation listing grid, as it
stands after the per-element selector chains of scrape_jobs have been
resolved: the text of the title element (with its h2 or h3 or
class-title fallbacks), the text of the company element, the text of
the info element, and the href of the first anchor into /jobs/.  A
missing element is none; text may still be empty. -/
structure ASItem where
  titleText : Option String
  companyText : Option String
  infoText : Option String
  linkHref : Option String
deriving Repr, DecidableEq

/-- URL resolution of ArtStationScraper.scrape_jobs: the anchor href,
empty when the anchor is missing, with /jobs/ relative paths resolved
against the ArtStation origin. -/
def ASItem.resolvedUrl (it : ASItem) : String :=
  let url0 := it.linkHref.getD ""
  if pyStartsWith url0 "/jobs/" then "https://www.artstation.com" ++ url0
  else url0

namespace ArtStationScraper

/-- The body of the per-element loop of ArtStationScraper.scrape_jobs:
skip unless url, title and company are all truthy, then classify and
build the job dict. -/
def processItem (it : ASItem) : Option Job :=
  let url := it.resolvedUrl
  let location_info := it.infoText
  match it.titleText, it.companyText with
  | some title, some company =>
    if pyTruthy url && pyTruthy title && pyTruthy company then
      let is_character := is_character_artist title
      let is_entry := is_entry_level title (location_info.getD "")
      some
        { platform := "ArtStation"
          external_id := extract_external_id url
          url := url
          title := title
          company := company
          location := location_info
          remote_type :=
            if (match location_info with
                | some l => pyTruthy l && hasSub (pyLower l) "remote"
                | none => false) then some "Remote" else none
          description := none
          is_character_artist := is_character
          is_entry_level := is_entry
          relevance_score := calculate_relevance is_character is_entry }
    else none
  | _, _ => none

/-- The extraction pass of ArtStationScraper.scrape_jobs over the
selected elements: no URL-seen set, one draft per passing element. -/
def scrape_items (items : List ASItem) : List Job :=
  items.filterMap processItem

end ArtStationScraper

/-- Truthiness gate of the ArtStation loop: all of url, title, company. -/
def ASItem.wellFormed (it : ASItem) : Bool :=
  pyTruthy it.resolvedUrl && pyTruthyOpt it.titleText && pyTruthyOpt it.companyText

/- ===================== GameJobsScraper ===================== -/

namespace GameJobsScraper

def character_keywords : List String :=
  ["character artist", "character modeler", "character designer",
   "3d character", "character animator", "character sculptor",
   "organic modeler"]

def related_keywords : List String :=
  ["3d artist", "3d generalist", "game artist", "asset artist"]

/-- GameJobsScraper._is_character_artist over the lowered
title-plus-description text. -/
def is_character_artist (title : String) (description : String := "") : Bool :=
  let text_lower := pyLower (title ++ " " ++ description)
  if character_keywords.any (fun k => hasSub text_lower k) then true
  else if related_keywords.any (fun k => hasSub text_lower k) then true
  else false

def entry_keywords : List String :=
  ["junior", "entry level", "entry-level", "associate",
   "graduate", "0-2 years", "1-2 years", "regular"]

def senior_keywords : List String :=
  ["senior", "lead", "principal", "director",
   "5+ years", "3+ years"]

/-- GameJobsScraper._is_entry_level, same entry-first shape as the
ArtStation classifier with its own keyword lists. -/
def is_entry_level (title : String) (description : String := "") : Bool :=
  let text_lower := pyLower (title ++ " " ++ description)
  if entry_keywords.any (fun k => hasSub text_lower k) then true
  else if senior_keywords.any (fun k => hasSub text_lower k) then false
  else true

/-- Outsourcing company allow list of
GameJobsScraper._calculate_relevance. -/
def outsourcing : List String :=
  ["keywords", "virtuos", "streamline", "ptw", "sperasoft",
   "liquid development", "magic media", "dekogon"]

/-- GameJobsScraper._calculate_relevance: 6 plus 3 plus an optional 1
for an allow-listed company substring, clamped by min to 10. -/
def calculate_relevance (is_character is_entry : Bool)
    (company : String := "") : Nat :=
  let score := 0
  let score := if is_character then score + 6 else score
  let score := if is_entry then score + 3 else score
  let score :=
    if outsourcing.any (fun comp => hasSub (pyLower company) comp) then score + 1
    else score
  min score 10

/-- GameJobsScraper._extract_external_id: always the md5 fallback
behind the gamejobs_ tag. -/
def extract_external_id (url : String) : String :=
  "gamejobs_" ++ md5Hex12 url

/-- GameJobsScraper._extract_location: empty text gives no location;
otherwise the stripped text, replaced by the Remote marker when a
remote keyword occurs. -/
def extract_location (location_text : String) : Option String × Option String :=
  if !(pyTruthy location_text) then (none, none)
  else
    let location_text := pyStrip location_text
    let remote_keywords := ["remote", "anywhere", "work from home"]
    let is_remote := remote_keywords.any (fun kw => hasSub (pyLower location_text) kw)
    (some (if is_remote then "Remote" else location_text),
     if is_remote then some "Remote" else none)

end GameJobsScraper

/-- One candidate anchor of the GameJobs results page together with the
texts resolved from its parent: the anchor text and href, the company
element text and the location element text (none when the element is
absent). -/
structure GJItem where
  text : String
  href : String
  companyText : Option String
  locationText : Option String
deriving Repr, DecidableEq

/-- URL resolution of GameJobsScraper.scrape_jobs: root-relative hrefs
are resolved against the GameJobs origin. -/
def GJItem.resolvedUrl (it : GJItem) : String :=
  if pyStartsWith it.href "/" then "https://gamejobs.co" ++ it.href
  else it.href

namespace GameJobsScraper

/-- The body of the per-link loop of GameJobsScraper.scrape_jobs: skip
unless url and title are truthy, default the company to Unknown, then
classify and build the job dict. -/
def processItem (it : GJItem) : Option Job :=
  let title := it.text
  let url := it.resolvedUrl
  if pyTruthy url && pyTruthy title then
    let company := match it.companyText with
      | some c => c
      | none => "Unknown"
    let location_raw := it.locationText
    let location_data := extract_location (location_raw.getD "")
    let is_character := is_character_artist title
    let is_entry := is_entry_level title (location_raw.getD "")
    some
      { platform := "GameJobs"
        external_id := extract_external_id url
        url := url
        title := title
        company := company
        location := location_data.1
        remote_type := location_data.2
        description := none
        is_character_artist := is_character
        is_entry_level := is_entry
        relevance_score := calculate_relevance is_character is_entry company }
  else none

/-- The extraction pass of GameJobsScraper.scrape_jobs: no URL-seen
set, one draft per passing link. -/
def scrape_items (items : List GJItem) : List Job :=
  items.filterMap processItem

end GameJobsScraper

/-- Truthiness gate of the GameJobs loop: url and title only. -/
def GJItem.wellFormed (it : GJItem) : Bool :=
  pyTruthy it.resolvedUrl && pyTruthy it.text

/- ===================== HitmarkerScraper ===================== -/

namespace HitmarkerScraper

def character_keywords : List String :=
  ["character artist", "3d character", "character model",
   "character designer", "character sculpt", "character rigger",
   "character animator", "creature artist"]

def related_keywords : List String :=
  ["3d artist", "3d modeler", "3d generalist",
   "game artist", "asset artist"]

/-- HitmarkerScraper._is_character_artist over the lowered title. -/
def is_character_artist (title : String) : Bool :=
  let title_lower := pyLower title
  if character_keywords.any (fun k => hasSub title_lower k) then true
  else if related_keywords.any (fun k => hasSub title_lower k) then true
  else false

def entry_keywords : List String :=
  ["junior", "entry level", "entry-level", "associate",
   "graduate", "intern", "trainee", "0-2 years",
   "1-2 years", "early career"]

def senior_keywords : List String :=
  ["senior", "lead", "principal", "director",
   "head of", "5+ years", "3+ years", "experienced"]

/-- HitmarkerScraper._is_entry_level, entry-first shape. -/
def is_entry_level (title : String) (description : String := "") : Bool :=
  let text_lower := pyLower (title ++ " " ++ description)
  if entry_keywords.any (fun k => hasSub text_lower k) then true
  else if senior_keywords.any (fun k => hasSub text_lower k) then false
  else true

/-- HitmarkerScraper._calculate_relevance: 6 plus 4, no clamp, no
company bonus. -/
def calculate_relevance (is_character is_entry : Bool) : Nat :=
  let score := 0
  let score := if is_character then score + 6 else score
  let score := if is_entry then score + 4 else score
  score

/-- HitmarkerScraper._extract_external_id behind the hitmarker_ tag. -/
def extract_external_id (url : String) : String :=
  match findJobsId url.data with
  | some ds => "hitmarker_" ++ String.mk ds
  | none => "hitmarker_" ++ md5Hex12 url

end HitmarkerScraper

/-- One candidate anchor into /jobs/ of the Hitmarker page, with the
texts resolved from its parent element. -/
structure HMItem where
  href : String
  text : String
  companyText : Option String
  locationText : Option String
deriving Repr, DecidableEq

/-- URL resolution of HitmarkerScraper.scrape_jobs: absolute hrefs kept,
anything else resolved against the Hitmarker origin. -/
def HMItem.resolvedUrl (it : HMItem) : String :=
  if pyStartsWith it.href "http" then it.href
  else "https://hitmarker.net" ++ it.href

namespace HitmarkerScraper

/-- The job dict built for one accepted Hitmarker element. -/
def mkJob (it : HMItem) (url : String) : Job :=
  let title := it.text
  let company := match it.companyText with
    | some c => pyStrip (String.replace c "Company:" "")
    | none => "Unknown"
  let location_info := it.locationText
  let is_character := is_character_artist title
  let is_entry := is_entry_level title (location_info.getD "")
  { platform := "Hitmarker"
    external_id := extract_external_id url
    url := url
    title := title
    company := company
    location := location_info
    remote_type :=
      if (match location_info with
          | some l => pyTruthy l && hasSub (pyLower l) "remote"
          | none => false) then some "Remote" else none
    description := none
    is_character_artist := is_character
    is_entry_level := is_entry
    relevance_score := calculate_relevance is_character is_entry }

/-- The per-element loop of HitmarkerScraper.scrape_jobs: a URL-seen
set is consulted before any other check and the URL is marked seen
before the title-length filter runs. -/
def scrape_loop : List HMItem → List String → List Job
  | [], _ => []
  | it :: rest, seen =>
    let url := it.resolvedUrl
    if seen.contains url then scrape_loop rest seen
    else
      let seen := url :: seen
      let title := it.text
      if title.length < 5 ∨ title.length > 200 then scrape_loop rest seen
      else mkJob it url :: scrape_loop rest seen

/-- The extraction pass of HitmarkerScraper.scrape_jobs, starting from
an empty seen set. -/
def scrape_items (items : List HMItem) : List Job :=
  scrape_loop items []

end HitmarkerScraper

/- ===================== scrape_jobs run shapes =====================
Each scrape_jobs wraps its whole body in try-except and returns the
jobs list from every path.  navigate_to itself catches all navigation
and timeout errors and returns False, so a fetch failure takes the
early-return path with the empty list.  Exceptions from scrolling,
page.content or parsing escape to the outer handler while jobs is
still empty; per-element exceptions are swallowed by the inner
try-except of the loop. -/

inductive PageOutcome (α : Type) where
  | navFail : PageOutcome α
  | raiseEarly (msg : String) : PageOutcome α
  | content (items : List α) : PageOutcome α

namespace ArtStationScraper

/-- The try-block of ArtStationScraper.scrape_jobs: an escaping
exception is the error case, every other path produces the jobs list. -/
def scrape_body : PageOutcome ASItem → Except String (List Job)
  | .navFail => .ok []
  | .raiseEarly msg => .error msg
  | .content items => .ok (scrape_items items)

/-- ArtStationScraper.scrape_jobs: the outer except handler turns an
escaping exception into returning the jobs accumulated so far, which
is still the empty list at every escaping raise point. -/
def scrape_jobs (o : PageOutcome ASItem) : List Job :=
  match scrape_body o with
  | .ok l => l
  | .error _ => []

end ArtStationScraper

namespace GameJobsScraper

/-- The try-block of GameJobsScraper.scrape_jobs. -/
def scrape_body : PageOutcome GJItem → Except String (List Job)
  | .navFail => .ok []
  | .raiseEarly msg => .error msg
  | .content items => .ok (scrape_items items)

/-- GameJobsScraper.scrape_jobs with its outer except handler. -/
def scrape_jobs (o : PageOutcome GJItem) : List Job :=
  match scrape_body o with
  | .ok l => l
  | .error _ => []

end GameJobsScraper

namespace HitmarkerScraper

/-- The try-block of HitmarkerScraper.scrape_jobs. -/
def scrape_body : PageOutcome HMItem → Except String (List Job)
  | .navFail => .ok []
  | .raiseEarly msg => .error msg
  | .content items => .ok (scrape_items items)

/-- HitmarkerScraper.scrape_jobs with its outer except handler. -/
def scrape_jobs (o : PageOutcome HMItem) : List Job :=
  match scrape_body o with
  | .ok l => l
  | .error _ => []

end HitmarkerScraper

/- ===================== Identity across sources ===================== -/

inductive Source where
  | artstation
  | gamejobs
  | hitmarker
deriving Repr, DecidableEq

/-- The external-id function of the scraper owning each source. -/
def extractExternalId : Source → String → String
  | .artstation, u => ArtStationScraper.extract_external_id u
  | .gamejobs, u => GameJobsScraper.extract_external_id u
  | .hitmarker, u => HitmarkerScraper.extract_external_id u

/- ===================== Store (src/models.py) ===================== -/

/-- The unique constraint uix_platform_external: a row with the same
platform and external_id already exists. -/
def hasKey (store : List Job) (j : Job) : Bool :=
  store.any (fun k => k.platform == j.platform && k.external_id == j.external_id)

/-- models.save_job: add and commit; a duplicate key makes the commit
raise IntegrityError after rolling the session back, leaving the store
unchanged. -/
def saveJob (store : List Job) (j : Job) : Except Unit (List Job) :=
  if hasKey store j then .error ()
  else .ok (store ++ [j])

/-- Rows matching a (platform, external_id) key. -/
def countKey (store : List Job) (p e : String) : Nat :=
  (store.filter (fun k => k.platform == p && k.external_id == e)).length

/-- First row matching a (platform, external_id) key. -/
def findKey (store : List Job) (p e : String) : Option Job :=
  store.find? (fun k => k.platform == p && k.external_id == e)

/-- The per-posting save loop shared by main.run_scraper and
api.routers.scrape.run_single_scraper: IntegrityError rolls back and
counts a duplicate, any other save exception (the fault oracle, indexed
by position) rolls back and counts nothing, and both continue with the
next posting.  Returns the store, jobs_saved and jobs_duplicated. -/
def saveLoop (fault : Nat → Bool) : Nat → List Job → List Job →
    List Job × Nat × Nat
  | _, store, [] => (store, 0, 0)
  | i, store, j :: rest =>
    if fault i then saveLoop fault (i + 1) store rest
    else
      match saveJob store j with
      | .ok store2 =>
        let r := saveLoop fault (i + 1) store2 rest
        (r.1, r.2.1 + 1, r.2.2)
      | .error _ =>
        let r := saveLoop fault (i + 1) store rest
        (r.1, r.2.1, r.2.2 + 1)

/- ===================== Run orchestration ===================== -/

/-- The per-source stats dict of main.run_scraper and
api.routers.scrape.run_single_scraper.  The status field is also the
terminal status written to the JobRun record by finish_job_run, since
both are set together on each exit path. -/
structure RunStats where
  platform : String
  jobs_found : Nat
  jobs_saved : Nat
  jobs_duplicated : Nat
  status : String
deriving Repr, DecidableEq

/-- One source run for ArtStation, the shared shape of main.run_scraper
and run_single_scraper: when start_browser raises, the except handler
finishes the run as error with zero counts; otherwise scrape_jobs
returns (it never raises), the drafts are saved one by one, and the run
finishes as success with the counts.  close_browser and db.close in the
finally block have no observable effect here. -/
def runSourceAS (startFail : Bool) (o : PageOutcome ASItem)
    (fault : Nat → Bool) (db : List Job) : RunStats × List Job :=
  if startFail then
    ({ platform := "ArtStation", jobs_found := 0, jobs_saved := 0,
       jobs_duplicated := 0, status := "error" }, db)
  else
    let jobs := ArtStationScraper.scrape_jobs o
    let r := saveLoop fault 0 db jobs
    ({ platform := "ArtStation", jobs_found := jobs.length,
       jobs_saved := r.2.1, jobs_duplicated := r.2.2,
       status := "success" }, r.1)

/-- One source run for GameJobs, same shape. -/
def runSourceGJ (startFail : Bool) (o : PageOutcome GJItem)
    (fault : Nat → Bool) (db : List Job) : RunStats × List Job :=
  if startFail then
    ({ platform := "GameJobs", jobs_found := 0, jobs_saved := 0,
       jobs_duplicated := 0, status := "error" }, db)
  else
    let jobs := GameJobsScraper.scrape_jobs o
    let r := saveLoop fault 0 db jobs
    ({ platform := "GameJobs", jobs_found := jobs.length,
       jobs_saved := r.2.1, jobs_duplicated := r.2.2,
       status := "success" }, r.1)

/-- One source run for Hitmarker, same shape. -/
def runSourceHM (startFail : Bool) (o : PageOutcome HMItem)
    (fault : Nat → Bool) (db : List Job) : RunStats × List Job :=
  if startFail then
    ({ platform := "Hitmarker", jobs_found := 0, jobs_saved := 0,
       jobs_duplicated := 0, status := "error" }, db)
  else
    let jobs := HitmarkerScraper.scrape_jobs o
    let r := saveLoop fault 0 db jobs
    ({ platform := "Hitmarker", jobs_found := jobs.length,
       jobs_saved := r.2.1, jobs_duplicated := r.2.2,
       status := "success" }, r.1)

/-- The environment of one orchestrated invocation: for each platform,
whether start_browser raises, what the page interaction produces, and
which save attempts hit a non-duplicate store fault. -/
structure InvocationEnv where
  asStartFail : Bool
  asOutcome : PageOutcome ASItem
  asFault : Nat → Bool
  gjStartFail : Bool
  gjOutcome : PageOutcome GJItem
  gjFault : Nat → Bool
  hmStartFail : Bool
  hmOutcome : PageOutcome HMItem
  hmFault : Nat → Bool

/-- The scrapers_map dispatch of api.routers.scrape.run_scrapers; the
final branch is only reached for the three valid platform names, the
invalid ones having been rejected before any run starts. -/
def runSourceFor (p : String) (env : InvocationEnv) (db : List Job) :
    RunStats × List Job :=
  if p = "ArtStation" then runSourceAS env.asStartFail env.asOutcome env.asFault db
  else if p = "GameJobs" then runSourceGJ env.gjStartFail env.gjOutcome env.gjFault db
  else runSourceHM env.hmStartFail env.hmOutcome env.hmFault db

/-- The loop of run_scrapers over the requested platforms, accumulating
all_stats in order and threading the shared db session. -/
def runList (env : InvocationEnv) : List String → List Job →
    List RunStats × List Job
  | [], db => ([], db)
  | p :: ps, db =>
    let r := runSourceFor p env db
    let rest := runList env ps r.2
    (r.1 :: rest.1, rest.2)

/-- The response model of the /api/scrape/run endpoint. -/
structure ScrapeResponse where
  status : String
  results : List RunStats
deriving Repr, DecidableEq

def validPlatforms : List String := ["ArtStation", "GameJobs", "Hitmarker"]

/-- api.routers.scrape.run_scrapers: reject unknown platform names with
an HTTPException (the error case), otherwise run every requested
platform and answer with the per-source stats under the constant
top-level status string written in the return statement. -/
def runScrapers (platforms : List String) (env : InvocationEnv)
    (db : List Job) : Except String ScrapeResponse × List Job :=
  if platforms.any (fun p => !(validPlatforms.contains p)) then
    (.error "Invalid platforms", db)
  else
    let r := runList env platforms db
    (.ok { status := "success", results := r.1 }, r.2)

/- ===================== Concrete fixtures ===================== -/

/-- ArtStation grid element carrying the same listing twice in the C4
scenario. -/
def asDupItem : ASItem :=
  { titleText := some "Junior Artist", companyText := some "Studio",
    infoText := none, linkHref := some "/jobs/123" }

/-- ArtStation grid element with url and title but no company element. -/
def asNoCompanyItem : ASItem :=
  { titleText := some "Junior Artist", companyText := none,
    infoText := none, linkHref := some "/jobs/9" }

/-- GameJobs link with an empty anchor text. -/
def gjBadItem : GJItem :=
  { text := "", href := "/j", companyText := none, locationText := none }

/-- A stored ArtStation row. -/
def jobA : Job :=
  { platform := "ArtStation", external_id := "artstation_1",
    url := "https://www.artstation.com/jobs/1", title := "Character Artist",
    company := "StudioA", location := none, remote_type := none,
    description := none, is_character_artist := true,
    is_entry_level := true, relevance_score := 10 }

/-- A second posting with the key of jobA but different field values. -/
def jobA2 : Job :=
  { platform := "ArtStation", external_id := "artstation_1",
    url := "https://www.artstation.com/jobs/1", title := "Character Artist II",
    company := "StudioB", location := some "Tokyo", remote_type := none,
    description := none, is_character_artist := true,
    is_entry_level := false, relevance_score := 6 }

/-- Invocation environment in which every browser start raises. -/
def envAllFail : InvocationEnv :=
  { asStartFail := true, asOutcome := PageOutcome.navFail, asFault := fun _ => false,
    gjStartFail := true, gjOutcome := PageOutcome.navFail, gjFault := fun _ => false,
    hmStartFail := true, hmOutcome := PageOutcome.navFail, hmFault := fun _ => false }

/- ===================== Helper lemmas ===================== -/

theorem data_append (a b : String) : (a ++ b).data = a.data ++ b.data := by
  cases a; cases b; rfl

theorem ne_of_head (a b : String) (c1 c2 : Char)
    (ha : a.data.head? = some c1) (hb : b.data.head? = some c2)
    (hne : c1 ≠ c2) : a ≠ b := by
  intro h
  rw [h, hb] at ha
  exact hne (Option.some.inj ha).symm

theorem headOf (p : String) (c : Char) (rest : List Char)
    (hp : p.data = c :: rest) (r : String) : (p ++ r).data.head? = some c := by
  rw [data_append, hp]
  rfl

theorem asId_shape (u : String) :
    ∃ r, ArtStationScraper.extract_external_id u = "artstation_" ++ r := by
  cases h : findJobsId u.data with
  | none => exact ⟨md5Hex12 u, by simp only [ArtStationScraper.extract_external_id, h]⟩
  | some ds => exact ⟨String.mk ds, by simp only [ArtStationScraper.extract_external_id, h]⟩

theorem hmId_shape (u : String) :
    ∃ r, HitmarkerScraper.extract_external_id u = "hitmarker_" ++ r := by
  cases h : findJobsId u.data with
  | none => exact ⟨md5Hex12 u, by simp only [HitmarkerScraper.extract_external_id, h]⟩
  | some ds => exact ⟨String.mk ds, by simp only [HitmarkerScraper.extract_external_id, h]⟩

theorem as_ne_gj (u v : String) :
    ArtStationScraper.extract_external_id u ≠ GameJobsScraper.extract_external_id v := by
  obtain ⟨r1, h1⟩ := asId_shape u
  rw [h1, GameJobsScraper.extract_external_id]
  exact ne_of_head _ _ 'a' 'g' (headOf _ _ _ rfl _) (headOf _ _ _ rfl _) (by decide)

theorem as_ne_hm (u v : String) :
    ArtStationScraper.extract_external_id u ≠ HitmarkerScraper.extract_external_id v := by
  obtain ⟨r1, h1⟩ := asId_shape u
  obtain ⟨r2, h2⟩ := hmId_shape v
  rw [h1, h2]
  exact ne_of_head _ _ 'a' 'h' (headOf _ _ _ rfl _) (headOf _ _ _ rfl _) (by decide)

theorem gj_ne_hm (u v : String) :
    GameJobsScraper.extract_external_id u ≠ HitmarkerScraper.extract_external_id v := by
  obtain ⟨r2, h2⟩ := hmId_shape v
  rw [h2, GameJobsScraper.extract_external_id]
  exact ne_of_head _ _ 'g' 'h' (headOf _ _ _ rfl _) (headOf _ _ _ rfl _) (by decide)

/- ===================== Claims ===================== -/

/-- C9: for every URL, distinct sources compute distinct external
identifiers, each id being tagged with its source name; and each
extractor is a deterministic function of the URL alone. -/
theorem claim_C9 :
    (∀ (s1 s2 : Source) (u : String), s1 ≠ s2 →
      extractExternalId s1 u ≠ extractExternalId s2 u) ∧
    (∀ (s : Source) (u v : String), u = v →
      extractExternalId s u = extractExternalId s v) := by
  constructor
  · intro s1 s2 u hne
    cases s1 <;> cases s2 <;>
      first
      | exact absurd rfl hne
      | exact as_ne_gj u u
      | exact as_ne_hm u u
      | exact gj_ne_hm u u
      | exact (as_ne_gj u u).symm
      | exact (as_ne_hm u u).symm
      | exact (gj_ne_hm u u).symm
  · intro s u v h
    rw [h]

/-- C9 witness: the ArtStation and GameJobs ids of one concrete URL
differ. -/
theorem claim_C9_witness :
    extractExternalId Source.artstation "https://example.com/x" ≠
      extractExternalId Source.gamejobs "https://example.com/x" :=
  claim_C9.1 Source.artstation Source.gamejobs "https://example.com/x" (by decide)

/-- C7: in every scraper, with no company bonus, the relevance score is
strictly monotone over (target, entry), zero at (false, false), and
every output lies in the 0 to 10 band. -/
theorem claim_C7 :
    (ArtStationScraper.calculate_relevance true true >
       ArtStationScraper.calculate_relevance true false ∧
     ArtStationScraper.calculate_relevance true false >
       ArtStationScraper.calculate_relevance false false ∧
     ArtStationScraper.calculate_relevance false false = 0 ∧
     ∀ c e : Bool, ArtStationScraper.calculate_relevance c e ≤ 10) ∧
    (HitmarkerScraper.calculate_relevance true true >
       HitmarkerScraper.calculate_relevance true false ∧
     HitmarkerScraper.calculate_relevance true false >
       HitmarkerScraper.calculate_relevance false false ∧
     HitmarkerScraper.calculate_relevance false false = 0 ∧
     ∀ c e : Bool, HitmarkerScraper.calculate_relevance c e ≤ 10) ∧
    (GameJobsScraper.calculate_relevance true true "" >
       GameJobsScraper.calculate_relevance true false "" ∧
     GameJobsScraper.calculate_relevance true false "" >
       GameJobsScraper.calculate_relevance false false "" ∧
     GameJobsScraper.calculate_relevance false false "" = 0 ∧
     ∀ (c e : Bool) (comp : String),
       GameJobsScraper.calculate_relevance c e comp ≤ 10) := by
  refine ⟨⟨by decide, by decide, by decide, by decide⟩,
          ⟨by decide, by decide, by decide, by decide⟩,
          ⟨by decide, by decide, by decide, ?_⟩⟩
  intro c e comp
  simp only [GameJobsScraper.calculate_relevance]
  exact Nat.min_le_right _ _

/-- C8: when neither an entry keyword nor a senior keyword of the
classifier occurs in the lowered title-plus-description text, every
_is_entry_level returns true. -/
theorem claim_C8 : ∀ title description : String,
    (ArtStationScraper.entry_keywords.any
        (fun k => hasSub (pyLower (title ++ " " ++ description)) k) = false →
     ArtStationScraper.senior_keywords.any
        (fun k => hasSub (pyLower (title ++ " " ++ description)) k) = false →
     ArtStationScraper.is_entry_level title description = true) ∧
    (HitmarkerScraper.entry_keywords.any
        (fun k => hasSub (pyLower (title ++ " " ++ description)) k) = false →
     HitmarkerScraper.senior_keywords.any
        (fun k => hasSub (pyLower (title ++ " " ++ description)) k) = false →
     HitmarkerScraper.is_entry_level title description = true) ∧
    (GameJobsScraper.entry_keywords.any
        (fun k => hasSub (pyLower (title ++ " " ++ description)) k) = false →
     GameJobsScraper.senior_keywords.any
        (fun k => hasSub (pyLower (title ++ " " ++ description)) k) = false →
     GameJobsScraper.is_entry_level title description = true) := by
  intro title description
  refine ⟨fun h1 h2 => ?_, fun h1 h2 => ?_, fun h1 h2 => ?_⟩
  · simp [ArtStationScraper.is_entry_level, h1, h2]
  · simp [HitmarkerScraper.is_entry_level, h1, h2]
  · simp [GameJobsScraper.is_entry_level, h1, h2]

/-- C8 witness: a title matching no keyword of either list classifies
as entry level in all three scrapers. -/
theorem claim_C8_witness :
    ArtStationScraper.is_entry_level "Character Artist" "" = true ∧
    HitmarkerScraper.is_entry_level "Character Artist" "" = true ∧
    GameJobsScraper.is_entry_level "Character Artist" "" = true :=
  ⟨(claim_C8 "Character Artist" "").1 (by decide) (by decide),
   (claim_C8 "Character Artist" "").2.1 (by decide) (by decide),
   (claim_C8 "Character Artist" "").2.2 (by decide) (by decide)⟩

/-- C3 counterexample: a text containing the senior keyword senior is
still classified entry level by the ArtStation and GameJobs
classifiers when the entry keyword junior is also present, because the
entry-keyword loop runs first and returns true. -/
theorem claim_C3_counterexample :
    ("senior" ∈ ArtStationScraper.senior_keywords ∧
     hasSub (pyLower ("Junior Senior Character Artist" ++ " " ++ "")) "senior" = true ∧
     ArtStationScraper.is_entry_level "Junior Senior Character Artist" "" = true) ∧
    ("senior" ∈ GameJobsScraper.senior_keywords ∧
     hasSub (pyLower ("Junior Senior Character Artist" ++ " " ++ "")) "senior" = true ∧
     GameJobsScraper.is_entry_level "Junior Senior Character Artist" "" = true) := by
  decide

/-- C3 amended: entry keywords take precedence.  A senior keyword
forces a false classification only when no entry keyword occurs in the
lowered text; an entry keyword match always yields true. -/
theorem claim_C3 : ∀ title description : String,
    (ArtStationScraper.entry_keywords.any
        (fun k => hasSub (pyLower (title ++ " " ++ description)) k) = false →
     ArtStationScraper.senior_keywords.any
        (fun k => hasSub (pyLower (title ++ " " ++ description)) k) = true →
     ArtStationScraper.is_entry_level title description = false) ∧
    (ArtStationScraper.entry_keywords.any
        (fun k => hasSub (pyLower (title ++ " " ++ description)) k) = true →
     ArtStationScraper.is_entry_level title description = true) ∧
    (GameJobsScraper.entry_keywords.any
        (fun k => hasSub (pyLower (title ++ " " ++ description)) k) = false →
     GameJobsScraper.senior_keywords.any
        (fun k => hasSub (pyLower (title ++ " " ++ description)) k) = true →
     GameJobsScraper.is_entry_level title description = false) ∧
    (GameJobsScraper.entry_keywords.any
        (fun k => hasSub (pyLower (title ++ " " ++ description)) k) = true →
     GameJobsScraper.is_entry_level title description = true) := by
  intro title description
  refine ⟨fun h1 h2 => ?_, fun h1 => ?_, fun h1 h2 => ?_, fun h1 => ?_⟩
  · simp [ArtStationScraper.is_entry_level, h1, h2]
  · simp [ArtStationScraper.is_entry_level, h1]
  · simp [GameJobsScraper.is_entry_level, h1, h2]
  · simp [GameJobsScraper.is_entry_level, h1]

/-- C3 witness: with a senior keyword present and no entry keyword,
both classifiers return false. -/
theorem claim_C3_witness :
    ArtStationScraper.is_entry_level "Senior Character Artist" "" = false ∧
    GameJobsScraper.is_entry_level "Senior Character Artist" "" = false :=
  ⟨(claim_C3 "Senior Character Artist" "").1 (by decide) (by decide),
   (claim_C3 "Senior Character Artist" "").2.2.1 (by decide) (by decide)⟩

/- ===================== Extraction lemmas ===================== -/

theorem length_filterMap_count {α β : Type} (f : α → Option β) (p : α → Bool)
    (h : ∀ a, (f a).isSome = p a) :
    ∀ l : List α, (l.filterMap f).length = (l.filter p).length := by
  intro l
  induction l with
  | nil => rfl
  | cons a t ih =>
    rw [List.filterMap_cons, List.filter_cons]
    cases hf : f a with
    | none =>
      have hp : p a = false := by rw [← h a, hf]; rfl
      simp [hp, ih]
    | some b =>
      have hp : p a = true := by rw [← h a, hf]; rfl
      simp [hp, ih]

theorem as_isSome (it : ASItem) :
    (ArtStationScraper.processItem it).isSome = ASItem.wellFormed it := by
  cases it with
  | mk t c i l =>
    cases t with
    | none => simp [ArtStationScraper.processItem, ASItem.wellFormed, pyTruthyOpt]
    | some tv =>
      cases c with
      | none => simp [ArtStationScraper.processItem, ASItem.wellFormed, pyTruthyOpt]
      | some cv =>
        simp only [ArtStationScraper.processItem, ASItem.wellFormed, pyTruthyOpt]
        cases hu : pyTruthy (ASItem.mk (some tv) (some cv) i l).resolvedUrl <;>
          cases ht : pyTruthy tv <;> cases hc : pyTruthy cv <;> simp_all

theorem gj_isSome (it : GJItem) :
    (GameJobsScraper.processItem it).isSome = GJItem.wellFormed it := by
  cases it with
  | mk t h c l =>
    simp only [GameJobsScraper.processItem, GJItem.wellFormed]
    split <;> simp_all

/-- C5 counterexample: an ArtStation element with a truthy url and
title but no company element is discarded, so one well-formed item in
the sense of the claim produces zero drafts. -/
theorem claim_C5_counterexample :
    pyTruthyOpt asNoCompanyItem.titleText = true ∧
    pyTruthy asNoCompanyItem.resolvedUrl = true ∧
    ArtStationScraper.scrape_items [asNoCompanyItem] = [] := by
  decide

/-- C5 amended: extraction keeps exactly the items passing the
truthiness gate of its loop and a failing item never aborts the rest;
the gate is url and title for GameJobs, as the claim says, but url,
title and company for ArtStation. -/
theorem claim_C5 :
    (∀ items : List GJItem,
      (GameJobsScraper.scrape_items items).length =
        (items.filter GJItem.wellFormed).length) ∧
    (∀ items : List ASItem,
      (ArtStationScraper.scrape_items items).length =
        (items.filter ASItem.wellFormed).length) ∧
    (∀ (it : GJItem) (rest : List GJItem), GJItem.wellFormed it = false →
      GameJobsScraper.scrape_items (it :: rest) = GameJobsScraper.scrape_items rest) ∧
    (∀ (it : ASItem) (rest : List ASItem), ASItem.wellFormed it = false →
      ArtStationScraper.scrape_items (it :: rest) = ArtStationScraper.scrape_items rest) := by
  refine ⟨length_filterMap_count _ _ gj_isSome,
          length_filterMap_count _ _ as_isSome, ?_, ?_⟩
  · intro it rest h
    have hnone : GameJobsScraper.processItem it = none := by
      have := gj_isSome it
      rw [h] at this
      exact Option.not_isSome_iff_eq_none.mp (by simp [this])
    simp [GameJobsScraper.scrape_items, List.filterMap_cons, hnone]
  · intro it rest h
    have hnone : ArtStationScraper.processItem it = none := by
      have := as_isSome it
      rw [h] at this
      exact Option.not_isSome_iff_eq_none.mp (by simp [this])
    simp [ArtStationScraper.scrape_items, List.filterMap_cons, hnone]

/-- C5 witness: a GameJobs link with empty anchor text is skipped and
the pass continues as if it were absent. -/
theorem claim_C5_witness :
    GameJobsScraper.scrape_items [gjBadItem] = GameJobsScraper.scrape_items [] :=
  claim_C5.2.2.1 gjBadItem [] (by decide)

/- ===================== Hitmarker dedup lemma ===================== -/

theorem mkJob_url (it : HMItem) (url : String) :
    (HitmarkerScraper.mkJob it url).url = url := rfl

theorem hm_loop_urls : ∀ (items : List HMItem) (seen : List String),
    ((HitmarkerScraper.scrape_loop items seen).map (fun j => j.url)).Nodup ∧
    ∀ j ∈ HitmarkerScraper.scrape_loop items seen, seen.contains j.url = false := by
  intro items
  induction items with
  | nil =>
    intro seen
    exact ⟨List.nodup_nil, by simp [HitmarkerScraper.scrape_loop]⟩
  | cons it rest ih =>
    intro seen
    simp only [HitmarkerScraper.scrape_loop]
    cases hseen : seen.contains it.resolvedUrl with
    | true =>
      simp only [hseen, if_true]
      exact ih seen
    | false =>
      simp only [hseen, Bool.false_eq_true, if_false]
      obtain ⟨ihn, ihm⟩ := ih (it.resolvedUrl :: seen)
      have hdrop : ∀ j ∈ HitmarkerScraper.scrape_loop rest (it.resolvedUrl :: seen),
          seen.contains j.url = false := by
        intro j hj
        have := ihm j hj
        rw [List.contains_cons] at this
        exact (Bool.or_eq_false_iff.mp this).2
      have hne : ∀ j ∈ HitmarkerScraper.scrape_loop rest (it.resolvedUrl :: seen),
          j.url ≠ it.resolvedUrl := by
        intro j hj
        have := ihm j hj
        rw [List.contains_cons] at this
        have hb := (Bool.or_eq_false_iff.mp this).1
        intro hequrl
        rw [hequrl] at hb
        simp at hb
      split
      · exact ⟨ihn, hdrop⟩
      · constructor
        · rw [List.map_cons, List.nodup_cons]
          refine ⟨?_, ihn⟩
          intro hmem
          rw [List.mem_map] at hmem
          obtain ⟨j, hj, hju⟩ := hmem
          exact hne j hj (by rw [hju, mkJob_url])
        · intro j hj
          rw [List.mem_cons] at hj
          cases hj with
          | inl hj => rw [hj, mkJob_url]; exact hseen
          | inr hj => exact hdrop j hj

/-- C4 counterexample: two identical ArtStation grid elements with the
same absolute URL produce two draft postings, not one: the ArtStation
pass has no URL-seen set. -/
theorem claim_C4_counterexample :
    (ArtStationScraper.scrape_items [asDupItem, asDupItem]).map (fun j => j.url) =
      ["https://www.artstation.com/jobs/123", "https://www.artstation.com/jobs/123"] ∧
    (ArtStationScraper.scrape_items [asDupItem, asDupItem]).length = 2 := by
  decide

/-- C4 amended: only the Hitmarker pass deduplicates by absolute URL
within one extraction pass (its seen set admits at most one draft per
URL); the ArtStation and GameJobs passes have no in-pass dedup and
emit one draft per passing element even when URLs coincide. -/
theorem claim_C4 :
    (∀ items : List HMItem,
      ((HitmarkerScraper.scrape_items items).map (fun j => j.url)).Nodup) ∧
    (∀ it : ASItem, ASItem.wellFormed it = true →
      (ArtStationScraper.scrape_items [it, it]).length = 2) ∧
    (∀ it : GJItem, GJItem.wellFormed it = true →
      (GameJobsScraper.scrape_items [it, it]).length = 2) := by
  refine ⟨fun items => (hm_loop_urls items []).1, ?_, ?_⟩
  · intro it h
    have hs : (ArtStationScraper.processItem it).isSome = true := by
      rw [as_isSome it, h]
    obtain ⟨j, hj⟩ := Option.isSome_iff_exists.mp hs
    simp [ArtStationScraper.scrape_items, List.filterMap_cons, hj]
  · intro it h
    have hs : (GameJobsScraper.processItem it).isSome = true := by
      rw [gj_isSome it, h]
    obtain ⟨j, hj⟩ := Option.isSome_iff_exists.mp hs
    simp [GameJobsScraper.scrape_items, List.filterMap_cons, hj]

/-- C4 witness: a concrete well-formed ArtStation element repeated
twice yields two drafts. -/
theorem claim_C4_witness :
    (ArtStationScraper.scrape_items [asDupItem, asDupItem]).length = 2 :=
  claim_C4.2.1 asDupItem (by decide)

/- ===================== Store lemmas ===================== -/

theorem countKey_pos_hasKey (store : List Job) (j : Job)
    (h : 1 ≤ countKey store j.platform j.external_id) : hasKey store j = true := by
  unfold countKey at h
  unfold hasKey
  rw [List.any_eq_true]
  have hne : store.filter
      (fun k => k.platform == j.platform && k.external_id == j.external_id) ≠ [] := by
    intro hnil
    rw [hnil] at h
    simp at h
  obtain ⟨x, hx⟩ := List.exists_mem_of_ne_nil _ hne
  exact ⟨x, (List.mem_filter.mp hx).1, (List.mem_filter.mp hx).2⟩

theorem countKey_pos_find (store : List Job) (p e : String)
    (h : 1 ≤ countKey store p e) : (findKey store p e).isSome = true := by
  unfold countKey at h
  unfold findKey
  rw [List.find?_isSome]
  have hne : store.filter (fun k => k.platform == p && k.external_id == e) ≠ [] := by
    intro hnil
    rw [hnil] at h
    simp at h
  obtain ⟨x, hx⟩ := List.exists_mem_of_ne_nil _ hne
  exact ⟨x, (List.mem_filter.mp hx).1, (List.mem_filter.mp hx).2⟩

theorem saveLoop_keeps (fault : Nat → Bool) :
    ∀ (l : List Job) (i : Nat) (store : List Job) (p e : String),
      1 ≤ countKey store p e →
      countKey (saveLoop fault i store l).1 p e = countKey store p e ∧
      findKey (saveLoop fault i store l).1 p e = findKey store p e := by
  intro l
  induction l with
  | nil => exact fun i store p e _ => ⟨rfl, rfl⟩
  | cons j rest ih =>
    intro i store p e h
    simp only [saveLoop]
    cases hff : fault i with
    | true =>
      simp only [hff, if_true]
      exact ih (i + 1) store p e h
    | false =>
      simp only [hff, Bool.false_eq_true, if_false]
      cases hk : hasKey store j with
      | true =>
        have hsj : saveJob store j = Except.error () := by simp [saveJob, hk]
        simp only [hsj]
        exact ih (i + 1) store p e h
      | false =>
        have hsj : saveJob store j = Except.ok (store ++ [j]) := by simp [saveJob, hk]
        simp only [hsj]
        have hnk : (j.platform == p && j.external_id == e) = false := by
          cases hm : (j.platform == p && j.external_id == e) with
          | false => rfl
          | true =>
            obtain ⟨hp, he⟩ := Bool.and_eq_true_iff.mp hm
            have hp2 : j.platform = p := by simpa using hp
            have he2 : j.external_id = e := by simpa using he
            have : hasKey store j = true := by
              apply countKey_pos_hasKey
              rw [hp2, he2]
              exact h
            rw [hk] at this
            exact absurd this (by simp)
        have hc : countKey (store ++ [j]) p e = countKey store p e := by
          unfold countKey
          rw [List.filter_append]
          simp [hnk]
        have hfk : findKey (store ++ [j]) p e = findKey store p e := by
          unfold findKey
          rw [List.find?_append]
          have hs := countKey_pos_find store p e h
          obtain ⟨x, hx⟩ := Option.isSome_iff_exists.mp hs
          unfold findKey at hx
          rw [hx]
          rfl
        obtain ⟨ih1, ih2⟩ := ih (i + 1) (store ++ [j]) p e (by rw [hc]; exact h)
        exact ⟨by rw [ih1, hc], by rw [ih2, hfk]⟩

/-- C6: a posting whose (platform, external_id) key already exists is
rejected by the unique constraint: the store keeps exactly the one
existing row with its original values, the attempt is counted in
jobs_duplicated and not in jobs_saved after the rollback, and the loop
continues over the remaining postings. -/
theorem claim_C6 (fault : Nat → Bool) (i : Nat) (store : List Job)
    (j : Job) (rest : List Job)
    (hk : hasKey store j = true) (hf : fault i = false) :
    (saveLoop fault i store (j :: rest) =
      ((saveLoop fault (i + 1) store rest).1,
       (saveLoop fault (i + 1) store rest).2.1,
       (saveLoop fault (i + 1) store rest).2.2 + 1)) ∧
    (countKey store j.platform j.external_id = 1 →
      countKey (saveLoop fault i store (j :: rest)).1 j.platform j.external_id = 1 ∧
      findKey (saveLoop fault i store (j :: rest)).1 j.platform j.external_id =
        findKey store j.platform j.external_id) := by
  have hsj : saveJob store j = Except.error () := by simp [saveJob, hk]
  constructor
  · simp only [saveLoop, hf, Bool.false_eq_true, if_false, hsj]
  · intro h1
    have := saveLoop_keeps fault (j :: rest) i store j.platform j.external_id
      (by rw [h1])
    rw [h1] at this
    exact this

/-- C6 witness: re-inserting the key of the stored row jobA with
different field values leaves the store at exactly the original row,
counts one duplicate and zero saves. -/
theorem claim_C6_witness :
    saveLoop (fun _ => false) 0 [jobA] (jobA2 :: []) =
      ((saveLoop (fun _ => false) 1 [jobA] []).1,
       (saveLoop (fun _ => false) 1 [jobA] []).2.1,
       (saveLoop (fun _ => false) 1 [jobA] []).2.2 + 1) ∧
    countKey (saveLoop (fun _ => false) 0 [jobA] (jobA2 :: [])).1
        jobA2.platform jobA2.external_id = 1 ∧
    findKey (saveLoop (fun _ => false) 0 [jobA] (jobA2 :: [])).1
        jobA2.platform jobA2.external_id =
      findKey [jobA] jobA2.platform jobA2.external_id := by
  have h := claim_C6 (fun _ => false) 0 [jobA] jobA2 [] (by decide) rfl
  exact ⟨h.1, (h.2 (by decide)).1, (h.2 (by decide)).2⟩

/- ===================== Run-level claims ===================== -/

/-- C1 counterexample: a run whose page fetch fails finishes with
status success, not error: navigate_to catches the navigation failure
and returns False, scrape_jobs returns the empty list, and the run
records success with zero jobs found. -/
theorem claim_C1_counterexample :
    (runSourceAS false PageOutcome.navFail (fun _ => false) []).1.status = "success" ∧
    ¬(runSourceAS false PageOutcome.navFail (fun _ => false) []).1.status = "error" ∧
    (runSourceAS false PageOutcome.navFail (fun _ => false) []).1.jobs_found = 0 := by
  decide

/-- C1 amended: when the page fetch fails (or any exception escapes the
scrape body before extraction), the source run still terminates with
status success, contributing zero postings to the found count and
leaving the store untouched; the error status is not produced by a
fetch failure. -/
theorem claim_C1 : ∀ (fault : Nat → Bool) (db : List Job) (msg : String),
    runSourceAS false PageOutcome.navFail fault db =
      ({ platform := "ArtStation", jobs_found := 0, jobs_saved := 0,
         jobs_duplicated := 0, status := "success" }, db) ∧
    runSourceGJ false PageOutcome.navFail fault db =
      ({ platform := "GameJobs", jobs_found := 0, jobs_saved := 0,
         jobs_duplicated := 0, status := "success" }, db) ∧
    runSourceHM false PageOutcome.navFail fault db =
      ({ platform := "Hitmarker", jobs_found := 0, jobs_saved := 0,
         jobs_duplicated := 0, status := "success" }, db) ∧
    runSourceAS false (PageOutcome.raiseEarly msg) fault db =
      ({ platform := "ArtStation", jobs_found := 0, jobs_saved := 0,
         jobs_duplicated := 0, status := "success" }, db) ∧
    runSourceGJ false (PageOutcome.raiseEarly msg) fault db =
      ({ platform := "GameJobs", jobs_found := 0, jobs_saved := 0,
         jobs_duplicated := 0, status := "success" }, db) ∧
    runSourceHM false (PageOutcome.raiseEarly msg) fault db =
      ({ platform := "Hitmarker", jobs_found := 0, jobs_saved := 0,
         jobs_duplicated := 0, status := "success" }, db) := by
  intro fault db msg
  exact ⟨rfl, rfl, rfl, rfl, rfl, rfl⟩

/-- C10: scrape_jobs never propagates an exception: an error escaping
the try block is caught and the accumulated list (still empty at every
escaping raise point) is returned, and consequently a source run
records the error status exactly when start_browser raises, whatever
the page does. -/
theorem claim_C10 :
    (∀ (b : Bool) (o : PageOutcome ASItem) (fault : Nat → Bool) (db : List Job),
      ((runSourceAS b o fault db).1.status = "error" ↔ b = true)) ∧
    (∀ (b : Bool) (o : PageOutcome GJItem) (fault : Nat → Bool) (db : List Job),
      ((runSourceGJ b o fault db).1.status = "error" ↔ b = true)) ∧
    (∀ (b : Bool) (o : PageOutcome HMItem) (fault : Nat → Bool) (db : List Job),
      ((runSourceHM b o fault db).1.status = "error" ↔ b = true)) ∧
    (∀ (o : PageOutcome ASItem) (msg : String),
      ArtStationScraper.scrape_body o = Except.error msg →
      ArtStationScraper.scrape_jobs o = []) ∧
    (∀ (o : PageOutcome GJItem) (msg : String),
      GameJobsScraper.scrape_body o = Except.error msg →
      GameJobsScraper.scrape_jobs o = []) ∧
    (∀ (o : PageOutcome HMItem) (msg : String),
      HitmarkerScraper.scrape_body o = Except.error msg →
      HitmarkerScraper.scrape_jobs o = []) := by
  refine ⟨?_, ?_, ?_, ?_, ?_, ?_⟩
  · intro b o fault db
    cases b <;> simp [runSourceAS]
  · intro b o fault db
    cases b <;> simp [runSourceGJ]
  · intro b o fault db
    cases b <;> simp [runSourceHM]
  · intro o msg h
    cases o <;> simp_all [ArtStationScraper.scrape_body, ArtStationScraper.scrape_jobs]
  · intro o msg h
    cases o <;> simp_all [GameJobsScraper.scrape_body, GameJobsScraper.scrape_jobs]
  · intro o msg h
    cases o <;> simp_all [HitmarkerScraper.scrape_body, HitmarkerScraper.scrape_jobs]

/-- C10 witness: an exception escaping the ArtStation scrape body is
caught and the empty accumulated list is returned. -/
theorem claim_C10_witness :
    ArtStationScraper.scrape_jobs (PageOutcome.raiseEarly "boom") = [] :=
  claim_C10.2.2.2.1 (PageOutcome.raiseEarly "boom") "boom" rfl

/-- C2 counterexample: with one requested source whose run errors, the
endpoint still answers with top-level status success, not partial: the
return statement of run_scrapers writes the literal success
unconditionally. -/
theorem claim_C2_counterexample :
    (runScrapers ["ArtStation"] envAllFail []).1 =
      Except.ok { status := "success",
                  results := [{ platform := "ArtStation", jobs_found := 0,
                                jobs_saved := 0, jobs_duplicated := 0,
                                status := "error" }] } ∧
    "success" ≠ "partial" := by
  exact ⟨rfl, by decide⟩

theorem runList_length (env : InvocationEnv) :
    ∀ (ps : List String) (db : List Job),
      (runList env ps db).1.length = ps.length := by
  intro ps
  induction ps with
  | nil => intro db; rfl
  | cons p t ih => intro db; simp only [runList, List.length_cons, ih]

/-- C2 amended: for every request naming only valid platforms, the
endpoint returns a structured response rather than raising: one stats
entry per requested platform, under a top-level status that is the
constant success whatever the per-source statuses are. -/
theorem claim_C2 : ∀ (platforms : List String) (env : InvocationEnv) (db : List Job),
    platforms.all (fun p => validPlatforms.contains p) = true →
    (runScrapers platforms env db).1 =
      Except.ok { status := "success", results := (runList env platforms db).1 } ∧
    (runList env platforms db).1.length = platforms.length := by
  intro platforms env db h
  have hguard : platforms.any (fun p => !(validPlatforms.contains p)) = false := by
    rw [List.any_eq_false]
    intro p hp
    have hc := (List.all_eq_true.mp h) p hp
    simp only [hc, Bool.not_true, Bool.false_eq_true, not_false_eq_true]
  constructor
  · simp only [runScrapers, hguard, Bool.false_eq_true, if_false]
  · exact runList_length env platforms db

/-- C2 witness: requesting the ArtStation platform in an environment
where its browser start raises still yields the structured response
with one result entry. -/
theorem claim_C2_witness :
    (runScrapers ["ArtStation"] envAllFail []).1 =
      Except.ok { status := "success",
                  results := (runList envAllFail ["ArtStation"] []).1 } ∧
    (runList envAllFail ["ArtStation"] []).1.length =
      (["ArtStation"] : List String).length :=
  claim_C2 ["ArtStation"] envAllFail [] (by decide)
